import Mathlib

/-!
Shallow embedding of the two extraction scripts of this repository:
`src/2_email_task_parser.py` and `src/customer_sentiment_analyzer.py`.

Both scripts declare a pydantic schema (`EmailTask`, `CustomerSentimentAnalysis`),
build a two-message chat request and hand it, together with the schema, to
`client.chat.completions.parse` of the model-calling client; the client submits
the request to the model, validates the model's raw JSON output against the
schema (pydantic `Literal` sets, `ge`/`le` bounds, required/optional fields) and
the script returns `completion.choices[0].message.parsed` unchanged.

Embedding choices:
- The model side of the collaborator is a parameter
  `llm : ParseRequest → Except LLMError (RawCompletion α)` returning the raw
  (pre-validation) structured output, so stubs can drive the extractors.
- `MODEL_NAME` and `get_llm_client` live in `llm_config`, which is external
  configuration (the spec treats the client and its configuration as an
  external collaborator); the model identifier is a parameter `modelName`.
- pydantic validation of the raw output against the schema declared in the
  source is the `validate` function of each record type, translated field by
  field from the `Field` declarations (presence of required fields, `Literal`
  membership, the `ge=-1.0, le=1.0` bound, the `deadline` default of `None`).
- Python floats are embedded as `ℚ`; the bound checks are exact comparisons.
- Every collaborator submission goes through `callLLM`, which records the
  request; an extractor returns its result paired with the list of requests it
  submitted, so "exactly one call, no retry" is a statement about that list.
-/

/-- One of the three priority values of `EmailTask.priority`
(`Literal["high", "medium", "low"]`, src/2_email_task_parser.py line 68). -/
inductive Priority where
  | high
  | medium
  | low
  deriving DecidableEq, Repr

/-- The five sentiment levels (`Literal["very_positive", "positive", "neutral",
"negative", "very_negative"]`), used by `overall_sentiment` and by
`SentimentIndicator.sentiment_impact`. -/
inductive SentimentLevel where
  | very_positive
  | positive
  | neutral
  | negative
  | very_negative
  deriving DecidableEq, Repr

/-- `SentimentIndicator.category`: `Literal["product", "service", "price",
"support", "delivery", "overall"]`. -/
inductive FeedbackCategory where
  | product
  | service
  | price
  | support
  | delivery
  | overall
  deriving DecidableEq, Repr

/-- `emotion_detected`: `Literal["delighted", "satisfied", "neutral",
"frustrated", "angry"]`. -/
inductive Emotion where
  | delighted
  | satisfied
  | neutral
  | frustrated
  | angry
  deriving DecidableEq, Repr

/-- `churn_risk`: `Literal["low", "medium", "high"]`. -/
inductive ChurnRisk where
  | low
  | medium
  | high
  deriving DecidableEq, Repr

/-- `followup_priority`: `Literal["urgent", "high", "medium", "low"]`. -/
inductive FollowupPriority where
  | urgent
  | high
  | medium
  | low
  deriving DecidableEq, Repr

/-- `response_template_type`: `Literal["apology", "thank_you", "clarification",
"resolution"]`. -/
inductive ResponseTemplateType where
  | apology
  | thank_you
  | clarification
  | resolution
  deriving DecidableEq, Repr

/-- The legal strings of `EmailTask.priority`. -/
def priorityStrings : List String := ["high", "medium", "low"]

/-- The legal strings of the five-level sentiment fields. -/
def sentimentLevelStrings : List String :=
  ["very_positive", "positive", "neutral", "negative", "very_negative"]

/-- The legal strings of `SentimentIndicator.category`. -/
def categoryStrings : List String :=
  ["product", "service", "price", "support", "delivery", "overall"]

/-- The legal strings of `emotion_detected`. -/
def emotionStrings : List String :=
  ["delighted", "satisfied", "neutral", "frustrated", "angry"]

/-- The legal strings of `churn_risk`. -/
def churnRiskStrings : List String := ["low", "medium", "high"]

/-- The legal strings of `followup_priority`. -/
def followupPriorityStrings : List String := ["urgent", "high", "medium", "low"]

/-- The legal strings of `response_template_type`. -/
def responseTemplateTypeStrings : List String :=
  ["apology", "thank_you", "clarification", "resolution"]

/-- pydantic `Literal` validation for `priority`. -/
def Priority.ofString (s : String) : Option Priority :=
  if s = "high" then some .high
  else if s = "medium" then some .medium
  else if s = "low" then some .low
  else none

/-- pydantic `Literal` validation for the five-level sentiment fields. -/
def SentimentLevel.ofString (s : String) : Option SentimentLevel :=
  if s = "very_positive" then some .very_positive
  else if s = "positive" then some .positive
  else if s = "neutral" then some .neutral
  else if s = "negative" then some .negative
  else if s = "very_negative" then some .very_negative
  else none

/-- pydantic `Literal` validation for `category`. -/
def FeedbackCategory.ofString (s : String) : Option FeedbackCategory :=
  if s = "product" then some .product
  else if s = "service" then some .service
  else if s = "price" then some .price
  else if s = "support" then some .support
  else if s = "delivery" then some .delivery
  else if s = "overall" then some .overall
  else none

/-- pydantic `Literal` validation for `emotion_detected`. -/
def Emotion.ofString (s : String) : Option Emotion :=
  if s = "delighted" then some .delighted
  else if s = "satisfied" then some .satisfied
  else if s = "neutral" then some .neutral
  else if s = "frustrated" then some .frustrated
  else if s = "angry" then some .angry
  else none

/-- pydantic `Literal` validation for `churn_risk`. -/
def ChurnRisk.ofString (s : String) : Option ChurnRisk :=
  if s = "low" then some .low
  else if s = "medium" then some .medium
  else if s = "high" then some .high
  else none

/-- pydantic `Literal` validation for `followup_priority`. -/
def FollowupPriority.ofString (s : String) : Option FollowupPriority :=
  if s = "urgent" then some .urgent
  else if s = "high" then some .high
  else if s = "medium" then some .medium
  else if s = "low" then some .low
  else none

/-- pydantic `Literal` validation for `response_template_type`. -/
def ResponseTemplateType.ofString (s : String) : Option ResponseTemplateType :=
  if s = "apology" then some .apology
  else if s = "thank_you" then some .thank_you
  else if s = "clarification" then some .clarification
  else if s = "resolution" then some .resolution
  else none

/-- The string a `Priority` value came from. -/
def Priority.toStr : Priority → String
  | .high => "high"
  | .medium => "medium"
  | .low => "low"

/-- The string a `SentimentLevel` value came from. -/
def SentimentLevel.toStr : SentimentLevel → String
  | .very_positive => "very_positive"
  | .positive => "positive"
  | .neutral => "neutral"
  | .negative => "negative"
  | .very_negative => "very_negative"

/-- The string a `FeedbackCategory` value came from. -/
def FeedbackCategory.toStr : FeedbackCategory → String
  | .product => "product"
  | .service => "service"
  | .price => "price"
  | .support => "support"
  | .delivery => "delivery"
  | .overall => "overall"

/-- The string an `Emotion` value came from. -/
def Emotion.toStr : Emotion → String
  | .delighted => "delighted"
  | .satisfied => "satisfied"
  | .neutral => "neutral"
  | .frustrated => "frustrated"
  | .angry => "angry"

/-- The string a `ChurnRisk` value came from. -/
def ChurnRisk.toStr : ChurnRisk → String
  | .low => "low"
  | .medium => "medium"
  | .high => "high"

/-- The string a `FollowupPriority` value came from. -/
def FollowupPriority.toStr : FollowupPriority → String
  | .urgent => "urgent"
  | .high => "high"
  | .medium => "medium"
  | .low => "low"

/-- The string a `ResponseTemplateType` value came from. -/
def ResponseTemplateType.toStr : ResponseTemplateType → String
  | .apology => "apology"
  | .thank_you => "thank_you"
  | .clarification => "clarification"
  | .resolution => "resolution"

/-- `EmailTask` of src/2_email_task_parser.py lines 59-81: the validated record.
`deadline` is `Optional[str] = Field(None, ...)`; every other field is required. -/
structure EmailTask where
  sender : String
  date : String
  action_items : List String
  priority : Priority
  deadline : Option String
  context : String
  deriving DecidableEq, Repr

/-- `SentimentIndicator` of src/customer_sentiment_analyzer.py lines 12-16. -/
structure SentimentIndicator where
  phrase : String
  sentiment_impact : SentimentLevel
  category : FeedbackCategory
  deriving DecidableEq, Repr

/-- `CustomerSentimentAnalysis` of src/customer_sentiment_analyzer.py
lines 136-198: the validated record. All fields are required;
`sentiment_score` is declared with `ge=-1.0, le=1.0`. -/
structure CustomerSentimentAnalysis where
  overall_sentiment : SentimentLevel
  sentiment_score : ℚ
  key_sentiment_indicators : List SentimentIndicator
  positive_aspects : List String
  negative_aspects : List String
  improvement_suggestions : List String
  emotion_detected : Emotion
  churn_risk : ChurnRisk
  requires_followup : Bool
  followup_priority : FollowupPriority
  recommended_actions : List String
  response_template_type : ResponseTemplateType
  executive_summary_spanish : String
  deriving DecidableEq, Repr

/-- The model's raw structured output for the `EmailTask` schema, before
pydantic validation: every field may be absent, enum fields are plain strings. -/
structure RawEmailTask where
  sender : Option String
  date : Option String
  action_items : Option (List String)
  priority : Option String
  deadline : Option String
  context : Option String
  deriving DecidableEq, Repr

/-- The model's raw structured output for a `SentimentIndicator`. -/
structure RawSentimentIndicator where
  phrase : Option String
  sentiment_impact : Option String
  category : Option String
  deriving DecidableEq, Repr

/-- The model's raw structured output for the `CustomerSentimentAnalysis`
schema, before pydantic validation. -/
structure RawCustomerSentimentAnalysis where
  overall_sentiment : Option String
  sentiment_score : Option ℚ
  key_sentiment_indicators : Option (List RawSentimentIndicator)
  positive_aspects : Option (List String)
  negative_aspects : Option (List String)
  improvement_suggestions : Option (List String)
  emotion_detected : Option String
  churn_risk : Option String
  requires_followup : Option Bool
  followup_priority : Option String
  recommended_actions : Option (List String)
  response_template_type : Option String
  executive_summary_spanish : Option String
  deriving DecidableEq, Repr

/-- The spec's error taxonomy (§7). The sources only ever produce
`collaboratorUnavailable` (a failing external call), `schemaViolation`
(pydantic validation failure inside `client.chat.completions.parse`) and
`indexError` (`completion.choices[0]` on an empty choice list); `emptyInput`
is declared by the spec but produced nowhere in the code. -/
inductive LLMError where
  | transport
  | auth
  | quota
  deriving DecidableEq, Repr

/-- Typed failures of an extraction call. -/
inductive ExtractionError where
  | collaboratorUnavailable (e : LLMError)
  | schemaViolation
  | emptyInput
  | indexError
  deriving DecidableEq, Repr

/-- pydantic validation of the model's raw output against the `EmailTask`
schema, as performed inside `client.chat.completions.parse`: the five required
fields must be present, `priority` must be one of its `Literal` values, and an
absent `deadline` defaults to `None` (src/2_email_task_parser.py lines 59-81). -/
def EmailTask.validate (raw : RawEmailTask) : Except ExtractionError EmailTask :=
  match raw.sender, raw.date, raw.action_items, raw.priority, raw.context with
  | some sender, some date, some items, some ps, some context =>
    match Priority.ofString ps with
    | some priority =>
      .ok { sender := sender, date := date, action_items := items,
            priority := priority, deadline := raw.deadline, context := context }
    | none => .error .schemaViolation
  | _, _, _, _, _ => .error .schemaViolation

/-- pydantic validation of a raw `SentimentIndicator`: all three fields
required, both enum fields checked against their `Literal` sets. -/
def SentimentIndicator.validate (raw : RawSentimentIndicator) :
    Except ExtractionError SentimentIndicator :=
  match raw.phrase, raw.sentiment_impact, raw.category with
  | some phrase, some si, some cat =>
    match SentimentLevel.ofString si, FeedbackCategory.ofString cat with
    | some impact, some category =>
      .ok { phrase := phrase, sentiment_impact := impact, category := category }
    | _, _ => .error .schemaViolation
  | _, _, _ => .error .schemaViolation

/-- Validation of the nested `List[SentimentIndicator]`, element by element. -/
def validateIndicators :
    List RawSentimentIndicator → Except ExtractionError (List SentimentIndicator)
  | [] => .ok []
  | r :: rs =>
    match SentimentIndicator.validate r, validateIndicators rs with
    | .ok i, .ok is => .ok (i :: is)
    | .error e, _ => .error e
    | .ok _, .error e => .error e

/-- pydantic validation of the model's raw output against the
`CustomerSentimentAnalysis` schema: all thirteen fields required, the five
top-level enum fields checked against their `Literal` sets, `sentiment_score`
checked against `ge=-1.0, le=1.0`, and the nested indicator list validated
element by element (src/customer_sentiment_analyzer.py lines 136-198). -/
def CustomerSentimentAnalysis.validate (raw : RawCustomerSentimentAnalysis) :
    Except ExtractionError CustomerSentimentAnalysis :=
  match raw.overall_sentiment, raw.sentiment_score, raw.key_sentiment_indicators,
        raw.positive_aspects, raw.negative_aspects, raw.improvement_suggestions,
        raw.emotion_detected, raw.churn_risk, raw.requires_followup,
        raw.followup_priority, raw.recommended_actions,
        raw.response_template_type, raw.executive_summary_spanish with
  | some os, some score, some rinds, some pos, some neg, some sugg, some emo,
    some cr, some rf, some fp, some ra, some rtt, some summary =>
    match SentimentLevel.ofString os, Emotion.ofString emo, ChurnRisk.ofString cr,
          FollowupPriority.ofString fp, ResponseTemplateType.ofString rtt with
    | some overall, some emotion, some churn, some fprio, some rtype =>
      if (-1 : ℚ) ≤ score ∧ score ≤ 1 then
        match validateIndicators rinds with
        | .ok inds =>
          .ok { overall_sentiment := overall, sentiment_score := score,
                key_sentiment_indicators := inds, positive_aspects := pos,
                negative_aspects := neg, improvement_suggestions := sugg,
                emotion_detected := emotion, churn_risk := churn,
                requires_followup := rf, followup_priority := fprio,
                recommended_actions := ra, response_template_type := rtype,
                executive_summary_spanish := summary }
        | .error e => .error e
      else .error .schemaViolation
    | _, _, _, _, _ => .error .schemaViolation
  | _, _, _, _, _, _, _, _, _, _, _, _, _ => .error .schemaViolation

/-- One role-tagged message of the chat request. -/
structure ChatMessage where
  role : String
  content : String
  deriving DecidableEq, Repr

/-- The argument record of `client.chat.completions.parse` as the two scripts
build it: model identifier, message list, target schema (`response_format`,
here the schema's name), sampling temperature and, for the email script only,
`max_completion_tokens`. -/
structure ParseRequest where
  model : String
  messages : List ChatMessage
  response_format : String
  temperature : ℚ
  max_completion_tokens : Option Nat
  deriving DecidableEq, Repr

/-- The model side of one raw choice: unvalidated structured output. -/
structure RawMessage (α : Type) where
  content_raw : α
  deriving DecidableEq, Repr

/-- One raw choice of the model's completion. -/
structure RawChoice (α : Type) where
  message : RawMessage α
  deriving DecidableEq, Repr

/-- The model's raw completion: a list of choices, before validation. -/
structure RawCompletion (α : Type) where
  choices : List (RawChoice α)
  deriving DecidableEq, Repr

/-- A validated message: `message.parsed` of the SDK. -/
structure ParsedMessage (β : Type) where
  parsed : β
  deriving DecidableEq, Repr

/-- One validated choice. -/
structure ParsedChoice (β : Type) where
  message : ParsedMessage β
  deriving DecidableEq, Repr

/-- The validated completion returned by `client.chat.completions.parse`. -/
structure ParsedCompletion (β : Type) where
  choices : List (ParsedChoice β)
  deriving DecidableEq, Repr

/-- One network submission to the external model-calling collaborator; the
second component records the request so that the number of submissions an
extractor performs is part of its result. -/
def callLLM {α : Type} (llm : ParseRequest → Except LLMError (RawCompletion α))
    (req : ParseRequest) : Except LLMError (RawCompletion α) × List ParseRequest :=
  (llm req, [req])

/-- Schema validation of every choice of the raw completion. -/
def validateChoices {α β : Type} (validate : α → Except ExtractionError β) :
    List (RawChoice α) → Except ExtractionError (List (ParsedChoice β))
  | [] => .ok []
  | c :: cs =>
    match validate c.message.content_raw, validateChoices validate cs with
    | .ok b, .ok bs => .ok ({ message := { parsed := b } } :: bs)
    | .error e, _ => .error e
    | .ok _, .error e => .error e

/-- `client.chat.completions.parse`: one submission to the model, then pydantic
validation of each returned choice against the target schema. A failing
external call surfaces as `collaboratorUnavailable`; a validation failure as
the validator's error (`schemaViolation`). -/
def chat_completions_parse {α β : Type} (validate : α → Except ExtractionError β)
    (llm : ParseRequest → Except LLMError (RawCompletion α)) (req : ParseRequest) :
    Except ExtractionError (ParsedCompletion β) × List ParseRequest :=
  let r := callLLM llm req
  (match r.1 with
   | .error e => .error (.collaboratorUnavailable e)
   | .ok rawc =>
     match validateChoices validate rawc.choices with
     | .ok cs => .ok { choices := cs }
     | .error e => .error e,
   r.2)

/-- The system message of src/2_email_task_parser.py lines 112-126, verbatim. -/
def emailSystemContent : String :=
  "You are a task extraction specialist. \n" ++
  "                Extract actionable tasks from emails by:\n" ++
  "                1. Identifying the sender and date\n" ++
  "                2. Finding all action items (look for verbs like: review, send, prepare, schedule, complete)\n" ++
  "                3. Determining priority based on words like: urgent, ASAP, critical, when you can\n" ++
  "                4. Extracting specific deadlines if mentioned\n" ++
  "                5. Summarizing the context\n" ++
  "                \n" ++
  "                SOR GUIDELINES:\n" ++
  "                - Make action items specific: \"Review budget proposal\" not \"Review document\"\n" ++
  "                - Priority HIGH: urgent, ASAP, critical, deadline today/tomorrow\n" ++
  "                - Priority MEDIUM: please do, needed by [specific date]\n" ++
  "                - Priority LOW: when you can, when convenient, no rush\n" ++
  "                \n" ++
  "                Be specific and actionable in task descriptions."

/-- The system message of src/customer_sentiment_analyzer.py lines 230-262,
verbatim. -/
def sentimentSystemContent : String :=
  "You are a customer experience analyst.\n" ++
  "                Analyze customer feedback by:\n" ++
  "                1. Determining overall sentiment and emotion\n" ++
  "                2. Identifying specific positive and negative indicators\n" ++
  "                3. Assessing churn risk based on language intensity\n" ++
  "                4. Extracting improvement suggestions\n" ++
  "                5. Recommending concrete actions\n" ++
  "                \n" ++
  "                BUSINESS-ORIENTED SENTIMENT ANALYSIS:\n" ++
  "                \n" ++
  "                CHURN RISK ASSESSMENT:\n" ++
  "                - HIGH: Explicit threats to leave, comparison shopping mentions, \"final straw\" language\n" ++
  "                - MEDIUM: Frustration with multiple issues, questioning value, delayed responses\n" ++
  "                - LOW: Single issue complaints, constructive feedback, long-term customer language\n" ++
  "                \n" ++
  "                PRIORITY CLASSIFICATION:\n" ++
  "                - URGENT: Angry customers, service failures, public complaint threats\n" ++
  "                - HIGH: Dissatisfied customers with specific issues, competitive comparisons\n" ++
  "                - MEDIUM: Mixed feedback, process improvement suggestions\n" ++
  "                - LOW: Minor issues, general feedback, satisfied customers with suggestions\n" ++
  "                \n" ++
  "                RESPONSE TEMPLATE SELECTION:\n" ++
  "                - APOLOGY: Service failures, mistakes, unmet expectations\n" ++
  "                - THANK_YOU: Positive feedback, compliments, constructive suggestions\n" ++
  "                - CLARIFICATION: Misunderstandings, unclear processes, feature questions\n" ++
  "                - RESOLUTION: Specific problems requiring concrete fixes\n" ++
  "                \n" ++
  "                Look for subtle cues:\n" ++
  "                - Extreme language indicates high emotion\n" ++
  "                - Multiple issues suggest high churn risk\n" ++
  "                - Constructive criticism shows engaged customers\n" ++
  "                - Sarcasm often masks frustration\n" ++
  "                - Loyalty indicators (\"long-time customer\", \"usually satisfied\")"

/-- The fixed lead of the email user message (the f-string of line 130). -/
def emailUserIntro : String := "Extract tasks from this email:\n"

/-- The fixed lead of the feedback user message (the f-string of line 266). -/
def sentimentUserIntro : String := "Analyze this customer feedback:\n"

/-- The request `parse_email_to_tasks` builds: two messages, the `EmailTask`
schema, temperature 0.3, `max_completion_tokens=500`
(src/2_email_task_parser.py lines 107-136). -/
def emailRequest (modelName : String) (email_content : String) : ParseRequest :=
  { model := modelName
    messages :=
      [ { role := "system", content := emailSystemContent },
        { role := "user", content := emailUserIntro ++ email_content } ]
    response_format := "EmailTask"
    temperature := 3 / 10
    max_completion_tokens := some 500 }

/-- The request `analyze_customer_sentiment` builds: two messages, the
`CustomerSentimentAnalysis` schema, temperature 0.3, no output-size bound
(src/customer_sentiment_analyzer.py lines 225-271). -/
def sentimentRequest (modelName : String) (feedback : String) : ParseRequest :=
  { model := modelName
    messages :=
      [ { role := "system", content := sentimentSystemContent },
        { role := "user", content := sentimentUserIntro ++ feedback } ]
    response_format := "CustomerSentimentAnalysis"
    temperature := 3 / 10
    max_completion_tokens := none }

/-- `parse_email_to_tasks` of src/2_email_task_parser.py lines 84-138: build
the request, submit it once through the client, return
`completion.choices[0].message.parsed` unchanged. The second component is the
list of submissions performed. -/
def parse_email_to_tasks
    (llm : ParseRequest → Except LLMError (RawCompletion RawEmailTask))
    (modelName : String) (email_content : String) :
    Except ExtractionError EmailTask × List ParseRequest :=
  let r := chat_completions_parse EmailTask.validate llm
    (emailRequest modelName email_content)
  (match r.1 with
   | .error e => .error e
   | .ok completion =>
     match completion.choices with
     | [] => .error .indexError
     | c :: _ => .ok c.message.parsed,
   r.2)

/-- `analyze_customer_sentiment` of src/customer_sentiment_analyzer.py lines
201-273: build the request, submit it once through the client, return
`completion.choices[0].message.parsed` unchanged. The second component is the
list of submissions performed. -/
def analyze_customer_sentiment
    (llm : ParseRequest → Except LLMError (RawCompletion RawCustomerSentimentAnalysis))
    (modelName : String) (feedback : String) :
    Except ExtractionError CustomerSentimentAnalysis × List ParseRequest :=
  let r := chat_completions_parse CustomerSentimentAnalysis.validate llm
    (sentimentRequest modelName feedback)
  (match r.1 with
   | .error e => .error e
   | .ok completion =>
     match completion.choices with
     | [] => .error .indexError
     | c :: _ => .ok c.message.parsed,
   r.2)

/-- Model identifier used by the concrete stubs. -/
def stubModel : String := "gpt-test"

/-- A schema-conformant raw email record a stub model can return. -/
def stubRawEmailTask : RawEmailTask :=
  { sender := some ("a"), date := some ("d"), action_items := some ["t"],
    priority := some ("high"), deadline := none, context := some ("c") }

/-- The validated record `stubRawEmailTask` parses to. -/
def stubEmailTask : EmailTask :=
  { sender := "a", date := "d", action_items := ["t"], priority := .high,
    deadline := none, context := "c" }

/-- A deterministic stub collaborator for the email schema. -/
def stubEmailLLM : ParseRequest → Except LLMError (RawCompletion RawEmailTask) :=
  fun _ => .ok { choices := [ { message := { content_raw := stubRawEmailTask } } ] }

/-- A stub collaborator whose external call always fails. -/
def failingEmailLLM : ParseRequest → Except LLMError (RawCompletion RawEmailTask) :=
  fun _ => .error .transport

/-- A schema-conformant raw sentiment indicator. -/
def stubRawIndicator : RawSentimentIndicator :=
  { phrase := some ("p"), sentiment_impact := some ("negative"),
    category := some ("support") }

/-- The validated indicator `stubRawIndicator` parses to. -/
def stubIndicator : SentimentIndicator :=
  { phrase := "p", sentiment_impact := .negative, category := .support }

/-- A schema-conformant raw sentiment record with `requires_followup = true`,
`followup_priority = "urgent"` and an empty `recommended_actions` list: every
declared constraint of the schema holds, so pydantic accepts it. -/
def rawCsaUrgentNoActions : RawCustomerSentimentAnalysis :=
  { overall_sentiment := some ("negative"), sentiment_score := some 0,
    key_sentiment_indicators := some [stubRawIndicator],
    positive_aspects := some [], negative_aspects := some ["slow support"],
    improvement_suggestions := some [],
    emotion_detected := some ("angry"), churn_risk := some ("high"),
    requires_followup := some true, followup_priority := some ("urgent"),
    recommended_actions := some [],
    response_template_type := some ("apology"),
    executive_summary_spanish := some ("resumen") }

/-- The validated record `rawCsaUrgentNoActions` parses to. -/
def csaUrgentNoActions : CustomerSentimentAnalysis :=
  { overall_sentiment := .negative, sentiment_score := 0,
    key_sentiment_indicators := [stubIndicator],
    positive_aspects := [], negative_aspects := ["slow support"],
    improvement_suggestions := [],
    emotion_detected := .angry, churn_risk := .high,
    requires_followup := true, followup_priority := .urgent,
    recommended_actions := [],
    response_template_type := .apology,
    executive_summary_spanish := "resumen" }

/-- A deterministic stub collaborator for the sentiment schema. -/
def stubCsaLLM : ParseRequest → Except LLMError (RawCompletion RawCustomerSentimentAnalysis) :=
  fun _ => .ok { choices := [ { message := { content_raw := rawCsaUrgentNoActions } } ] }

/-- A stub collaborator for the sentiment schema whose external call fails. -/
def failingCsaLLM : ParseRequest → Except LLMError (RawCompletion RawCustomerSentimentAnalysis) :=
  fun _ => .error .transport

/-- `rawCsaUrgentNoActions` with a sentiment score of 1.5, outside the
declared `ge=-1.0, le=1.0` bound. -/
def rawCsaScoreTooHigh : RawCustomerSentimentAnalysis :=
  { rawCsaUrgentNoActions with sentiment_score := some (3 / 2) }

/-- `rawCsaUrgentNoActions` with a sentiment score of -2.0, outside the
declared `ge=-1.0, le=1.0` bound. -/
def rawCsaScoreTooLow : RawCustomerSentimentAnalysis :=
  { rawCsaUrgentNoActions with sentiment_score := some (-2) }

/-- A concrete email text for the concrete instantiations below. -/
def sampleEmailText : String := "please review the budget"

/-- A concrete feedback text for the concrete instantiations below. -/
def sampleFeedbackText : String := "support was slow"

/-- The empty input text. -/
def emptyText : String := ""

/-- A whitespace-only input text. -/
def blankText : String := "   "

/-- `stubRawEmailTask` with the hallucinated priority the source docstring
warns about (src/2_email_task_parser.py line 27): not in the `Literal` set. -/
def rawEmailBadPriority : RawEmailTask :=
  { stubRawEmailTask with priority := some ("super_urgent") }

/-- `stubRawEmailTask` with the required `sender` field missing. -/
def rawEmailNoSender : RawEmailTask :=
  { stubRawEmailTask with sender := none }

/-- A second deterministic stub collaborator, extensionally equal to
`stubEmailLLM` but a distinct definition. -/
def stubEmailLLM2 : ParseRequest → Except LLMError (RawCompletion RawEmailTask) :=
  fun _ => .ok { choices := [ { message := { content_raw := stubRawEmailTask } } ] }

/-- A string accepted by `Priority.ofString` is one of the declared values. -/
theorem priority_ofString_mem {s : String} {p : Priority}
    (h : Priority.ofString s = some p) : s ∈ priorityStrings := by
  unfold Priority.ofString at h
  split_ifs at h <;> simp_all [priorityStrings]

/-- A string accepted by `SentimentLevel.ofString` is one of the declared values. -/
theorem sentimentLevel_ofString_mem {s : String} {v : SentimentLevel}
    (h : SentimentLevel.ofString s = some v) : s ∈ sentimentLevelStrings := by
  unfold SentimentLevel.ofString at h
  split_ifs at h <;> simp_all [sentimentLevelStrings]

/-- A string accepted by `FeedbackCategory.ofString` is one of the declared values. -/
theorem feedbackCategory_ofString_mem {s : String} {v : FeedbackCategory}
    (h : FeedbackCategory.ofString s = some v) : s ∈ categoryStrings := by
  unfold FeedbackCategory.ofString at h
  split_ifs at h <;> simp_all [categoryStrings]

/-- A string accepted by `Emotion.ofString` is one of the declared values. -/
theorem emotion_ofString_mem {s : String} {v : Emotion}
    (h : Emotion.ofString s = some v) : s ∈ emotionStrings := by
  unfold Emotion.ofString at h
  split_ifs at h <;> simp_all [emotionStrings]

/-- A string accepted by `ChurnRisk.ofString` is one of the declared values. -/
theorem churnRisk_ofString_mem {s : String} {v : ChurnRisk}
    (h : ChurnRisk.ofString s = some v) : s ∈ churnRiskStrings := by
  unfold ChurnRisk.ofString at h
  split_ifs at h <;> simp_all [churnRiskStrings]

/-- A string accepted by `FollowupPriority.ofString` is one of the declared values. -/
theorem Followuppriority_ofString_mem {s : String} {v : FollowupPriority}
    (h : FollowupPriority.ofString s = some v) : s ∈ followupPriorityStrings := by
  unfold FollowupPriority.ofString at h
  split_ifs at h <;> simp_all [followupPriorityStrings]

/-- A string accepted by `ResponseTemplateType.ofString` is one of the declared
values. -/
theorem responseTemplateType_ofString_mem {s : String} {v : ResponseTemplateType}
    (h : ResponseTemplateType.ofString s = some v) : s ∈ responseTemplateTypeStrings := by
  unfold ResponseTemplateType.ofString at h
  split_ifs at h <;> simp_all [responseTemplateTypeStrings]

/-- Every enum value of `Priority` renders into the declared closed set. -/
theorem priority_toStr_mem (p : Priority) : p.toStr ∈ priorityStrings := by
  cases p <;> simp [Priority.toStr, priorityStrings]

/-- Every enum value of `SentimentLevel` renders into the declared closed set. -/
theorem sentimentLevel_toStr_mem (v : SentimentLevel) : v.toStr ∈ sentimentLevelStrings := by
  cases v <;> simp [SentimentLevel.toStr, sentimentLevelStrings]

/-- Every enum value of `FeedbackCategory` renders into the declared closed set. -/
theorem feedbackCategory_toStr_mem (v : FeedbackCategory) : v.toStr ∈ categoryStrings := by
  cases v <;> simp [FeedbackCategory.toStr, categoryStrings]

/-- Every enum value of `Emotion` renders into the declared closed set. -/
theorem emotion_toStr_mem (v : Emotion) : v.toStr ∈ emotionStrings := by
  cases v <;> simp [Emotion.toStr, emotionStrings]

/-- Every enum value of `ChurnRisk` renders into the declared closed set. -/
theorem churnRisk_toStr_mem (v : ChurnRisk) : v.toStr ∈ churnRiskStrings := by
  cases v <;> simp [ChurnRisk.toStr, churnRiskStrings]

/-- Every enum value of `FollowupPriority` renders into the declared closed set. -/
theorem Followuppriority_toStr_mem (v : FollowupPriority) : v.toStr ∈ followupPriorityStrings := by
  cases v <;> simp [FollowupPriority.toStr, followupPriorityStrings]

/-- Every enum value of `ResponseTemplateType` renders into the declared closed
set. -/
theorem responseTemplateType_toStr_mem (v : ResponseTemplateType) :
    v.toStr ∈ responseTemplateTypeStrings := by
  cases v <;> simp [ResponseTemplateType.toStr, responseTemplateTypeStrings]

/-- Inversion of a successful `EmailTask` validation: the raw `priority` field
was present and passed the `Literal` check for the returned record's priority. -/
theorem emailValidate_ok_priority {raw : RawEmailTask} {t : EmailTask}
    (h : EmailTask.validate raw = .ok t) :
    ∃ s, raw.priority = some s ∧ Priority.ofString s = some t.priority := by
  unfold EmailTask.validate at h
  split at h
  case _ sv dv iv pv cv heq1 heq2 heq3 heq4 heq5 =>
    split at h
    case _ p hp =>
      simp only [Except.ok.injEq] at h
      subst h
      exact ⟨pv, heq4, hp⟩
    case _ => simp at h
  case _ => simp at h

/-- A failed `EmailTask` validation always reports `schemaViolation`. -/
theorem emailValidate_error_shape {raw : RawEmailTask} {e : ExtractionError}
    (h : EmailTask.validate raw = .error e) : e = .schemaViolation := by
  unfold EmailTask.validate at h
  split at h
  · split at h <;> simp_all
  · simp_all

/-- Inversion of a successful `SentimentIndicator` validation. -/
theorem indicatorValidate_ok_inv {r : RawSentimentIndicator} {i : SentimentIndicator}
    (h : SentimentIndicator.validate r = .ok i) :
    (∃ s, r.sentiment_impact = some s ∧ SentimentLevel.ofString s = some i.sentiment_impact) ∧
    (∃ s, r.category = some s ∧ FeedbackCategory.ofString s = some i.category) := by
  unfold SentimentIndicator.validate at h
  split at h
  case _ pv sv cv e1 e2 e3 =>
    split at h
    case _ imp cat f1 f2 =>
      simp only [Except.ok.injEq] at h
      subst h
      exact ⟨⟨sv, e2, f1⟩, ⟨cv, e3, f2⟩⟩
    case _ => simp at h
  case _ => simp at h

/-- A failed `SentimentIndicator` validation always reports `schemaViolation`. -/
theorem indicatorValidate_error_shape {r : RawSentimentIndicator} {e : ExtractionError}
    (h : SentimentIndicator.validate r = .error e) : e = .schemaViolation := by
  unfold SentimentIndicator.validate at h
  split at h
  · split at h <;> simp_all
  · simp_all

/-- Every element of a successfully validated indicator list validates. -/
theorem validateIndicators_ok_mem {rs : List RawSentimentIndicator}
    {is : List SentimentIndicator} (h : validateIndicators rs = .ok is) :
    ∀ r ∈ rs, ∃ i, SentimentIndicator.validate r = .ok i := by
  induction rs generalizing is with
  | nil => intro r hr; simp at hr
  | cons r0 rs0 ih =>
    intro r hr
    unfold validateIndicators at h
    split at h
    case _ i0 is0 hv0 hvs =>
      rcases List.mem_cons.mp hr with hEq | hmem
      · exact hEq ▸ ⟨i0, hv0⟩
      · exact ih hvs r hmem
    case _ => simp at h
    case _ => simp at h

/-- A failed indicator-list validation always reports `schemaViolation`. -/
theorem validateIndicators_error_shape {rs : List RawSentimentIndicator} {e : ExtractionError}
    (h : validateIndicators rs = .error e) : e = .schemaViolation := by
  induction rs with
  | nil => simp [validateIndicators] at h
  | cons r0 rs0 ih =>
    unfold validateIndicators at h
    split at h
    case _ => simp at h
    case _ e0 hv0 =>
      simp only [Except.error.injEq] at h
      exact h ▸ indicatorValidate_error_shape hv0
    case _ e0 hv0 hvs =>
      simp only [Except.error.injEq] at h
      exact ih (h ▸ hvs)

/-- Inversion of a successful `CustomerSentimentAnalysis` validation: every
required field was present, every enum field passed its `Literal` check, the
score passed its bound check, and list fields carry over unchanged. -/
theorem csaValidate_ok_inv {raw : RawCustomerSentimentAnalysis}
    {a : CustomerSentimentAnalysis}
    (h : CustomerSentimentAnalysis.validate raw = .ok a) :
    (∃ s, raw.overall_sentiment = some s ∧
       SentimentLevel.ofString s = some a.overall_sentiment) ∧
    (∃ q, raw.sentiment_score = some q ∧ a.sentiment_score = q ∧
       (-1 : ℚ) ≤ q ∧ q ≤ 1) ∧
    (∃ rinds, raw.key_sentiment_indicators = some rinds ∧
       validateIndicators rinds = .ok a.key_sentiment_indicators) ∧
    (∃ s, raw.emotion_detected = some s ∧ Emotion.ofString s = some a.emotion_detected) ∧
    (∃ s, raw.churn_risk = some s ∧ ChurnRisk.ofString s = some a.churn_risk) ∧
    (∃ s, raw.followup_priority = some s ∧
       FollowupPriority.ofString s = some a.followup_priority) ∧
    (∃ s, raw.response_template_type = some s ∧
       ResponseTemplateType.ofString s = some a.response_template_type) ∧
    raw.requires_followup = some a.requires_followup ∧
    raw.recommended_actions = some a.recommended_actions := by
  unfold CustomerSentimentAnalysis.validate at h
  split at h
  case _ os sc ki pa na sg em cr rf fp ra rt es h1 h2 h3 h4 h5 h6 h7 h8 h9 h10 h11 h12 h13 =>
    split at h
    case _ lv emo chv fpv rtv e1 e2 e3 e4 e5 =>
      split at h
      case isTrue hb =>
        split at h
        case _ inds hv =>
          simp only [Except.ok.injEq] at h
          subst h
          exact ⟨⟨os, h1, e1⟩, ⟨sc, h2, rfl, hb.1, hb.2⟩, ⟨ki, h3, hv⟩,
                 ⟨em, h7, e2⟩, ⟨cr, h8, e3⟩, ⟨fp, h10, e4⟩, ⟨rt, h12, e5⟩, h9, h11⟩
        case _ => simp at h
      case isFalse => simp at h
    case _ => simp at h
  case _ => simp at h

/-- A failed `CustomerSentimentAnalysis` validation always reports
`schemaViolation`. -/
theorem csaValidate_error_shape {raw : RawCustomerSentimentAnalysis} {e : ExtractionError}
    (h : CustomerSentimentAnalysis.validate raw = .error e) : e = .schemaViolation := by
  unfold CustomerSentimentAnalysis.validate at h
  split at h
  case _ os sc ki pa na sg em cr rf fp ra rt es h1 h2 h3 h4 h5 h6 h7 h8 h9 h10 h11 h12 h13 =>
    split at h
    case _ lv emo chv fpv rtv e1 e2 e3 e4 e5 =>
      split at h
      case isTrue hb =>
        split at h
        case _ => simp at h
        case _ e0 hv =>
          simp only [Except.error.injEq] at h
          exact h ▸ validateIndicators_error_shape hv
      case isFalse => simp_all
    case _ => simp_all
  case _ => simp_all

/-- Inversion of a successful `validateChoices` with a non-empty result: the
first parsed choice is the validation of the first raw choice. -/
theorem validateChoices_ok_head {α β : Type} {validate : α → Except ExtractionError β}
    {cs : List (RawChoice α)} {p : ParsedChoice β} {ps : List (ParsedChoice β)}
    (h : validateChoices validate cs = .ok (p :: ps)) :
    ∃ r rs, cs = r :: rs ∧ validate r.message.content_raw = .ok p.message.parsed := by
  cases cs with
  | nil => simp [validateChoices] at h
  | cons c cs0 =>
    unfold validateChoices at h
    split at h
    case _ b bs hb hbs =>
      simp only [Except.ok.injEq, List.cons.injEq] at h
      obtain ⟨h1, _⟩ := h
      exact ⟨c, cs0, rfl, by rw [hb, ← h1]⟩
    case _ => simp at h
    case _ => simp at h

/-- A failed `validateChoices` reports an error of the element validator. -/
theorem validateChoices_error_shape {α β : Type} {validate : α → Except ExtractionError β}
    (hv : ∀ r e, validate r = .error e → e = .schemaViolation) :
    ∀ {cs : List (RawChoice α)} {e}, validateChoices validate cs = .error e →
      e = .schemaViolation := by
  intro cs
  induction cs with
  | nil => intro e h; simp [validateChoices] at h
  | cons c cs0 ih =>
    intro e h
    unfold validateChoices at h
    split at h
    case _ => simp at h
    case _ e0 hb =>
      simp only [Except.error.injEq] at h
      exact hv _ _ (h ▸ hb)
    case _ e0 hb hbs =>
      simp only [Except.error.injEq] at h
      exact ih (h ▸ hbs)

/-- A successful email extraction returns the pydantic validation of some raw
record produced by the collaborator. -/
theorem parse_email_ok_inv {llm : ParseRequest → Except LLMError (RawCompletion RawEmailTask)}
    {m x : String} {t : EmailTask}
    (h : (parse_email_to_tasks llm m x).1 = .ok t) :
    ∃ raw, EmailTask.validate raw = .ok t := by
  unfold parse_email_to_tasks chat_completions_parse callLLM at h
  cases hl : llm (emailRequest m x) with
  | error e => rw [hl] at h; simp at h
  | ok rawc =>
    rw [hl] at h
    dsimp only at h
    cases hvc : validateChoices EmailTask.validate rawc.choices with
    | error e => rw [hvc] at h; simp at h
    | ok cs =>
      rw [hvc] at h
      cases cs with
      | nil => simp at h
      | cons c cs0 =>
        simp only [Except.ok.injEq] at h
        obtain ⟨r, rs, _, hval⟩ := validateChoices_ok_head hvc
        exact ⟨r.message.content_raw, by rw [hval, h]⟩

/-- A successful sentiment extraction returns the pydantic validation of some
raw record produced by the collaborator. -/
theorem analyze_ok_inv
    {llm : ParseRequest → Except LLMError (RawCompletion RawCustomerSentimentAnalysis)}
    {m fb : String} {a : CustomerSentimentAnalysis}
    (h : (analyze_customer_sentiment llm m fb).1 = .ok a) :
    ∃ raw, CustomerSentimentAnalysis.validate raw = .ok a := by
  unfold analyze_customer_sentiment chat_completions_parse callLLM at h
  cases hl : llm (sentimentRequest m fb) with
  | error e => rw [hl] at h; simp at h
  | ok rawc =>
    rw [hl] at h
    dsimp only at h
    cases hvc : validateChoices CustomerSentimentAnalysis.validate rawc.choices with
    | error e => rw [hvc] at h; simp at h
    | ok cs =>
      rw [hvc] at h
      cases cs with
      | nil => simp at h
      | cons c cs0 =>
        simp only [Except.ok.injEq] at h
        obtain ⟨r, rs, _, hval⟩ := validateChoices_ok_head hvc
        exact ⟨r.message.content_raw, by rw [hval, h]⟩

/-- A failed email extraction fails with a collaborator error, a schema
violation or the empty-choices index error — never with `emptyInput`. -/
theorem parse_email_error_shape
    {llm : ParseRequest → Except LLMError (RawCompletion RawEmailTask)}
    {m x : String} {e : ExtractionError}
    (h : (parse_email_to_tasks llm m x).1 = .error e) :
    (∃ le, e = .collaboratorUnavailable le) ∨ e = .schemaViolation ∨ e = .indexError := by
  unfold parse_email_to_tasks chat_completions_parse callLLM at h
  cases hl : llm (emailRequest m x) with
  | error le =>
    rw [hl] at h
    simp only [Except.error.injEq] at h
    exact Or.inl ⟨le, h.symm⟩
  | ok rawc =>
    rw [hl] at h
    dsimp only at h
    cases hvc : validateChoices EmailTask.validate rawc.choices with
    | error e0 =>
      rw [hvc] at h
      simp only [Except.error.injEq] at h
      refine Or.inr (Or.inl ?_)
      exact h ▸ validateChoices_error_shape (fun r e hr => emailValidate_error_shape hr) hvc
    | ok cs =>
      rw [hvc] at h
      cases cs with
      | nil => simp only [Except.error.injEq] at h; exact Or.inr (Or.inr h.symm)
      | cons c cs0 => simp at h

/-- A failed sentiment extraction fails with a collaborator error, a schema
violation or the empty-choices index error — never with `emptyInput`. -/
theorem analyze_error_shape
    {llm : ParseRequest → Except LLMError (RawCompletion RawCustomerSentimentAnalysis)}
    {m fb : String} {e : ExtractionError}
    (h : (analyze_customer_sentiment llm m fb).1 = .error e) :
    (∃ le, e = .collaboratorUnavailable le) ∨ e = .schemaViolation ∨ e = .indexError := by
  unfold analyze_customer_sentiment chat_completions_parse callLLM at h
  cases hl : llm (sentimentRequest m fb) with
  | error le =>
    rw [hl] at h
    simp only [Except.error.injEq] at h
    exact Or.inl ⟨le, h.symm⟩
  | ok rawc =>
    rw [hl] at h
    dsimp only at h
    cases hvc : validateChoices CustomerSentimentAnalysis.validate rawc.choices with
    | error e0 =>
      rw [hvc] at h
      simp only [Except.error.injEq] at h
      refine Or.inr (Or.inl ?_)
      exact h ▸ validateChoices_error_shape (fun r e hr => csaValidate_error_shape hr) hvc
    | ok cs =>
      rw [hvc] at h
      cases cs with
      | nil => simp only [Except.error.injEq] at h; exact Or.inr (Or.inr h.symm)
      | cons c cs0 => simp at h

/-- C4: For every input text, each extractor submits exactly a two-part
message (the fixed system guidance plus a user message carrying the input)
together with the target schema at temperature 0.3; the email extractor
additionally bounds the output size with `max_completion_tokens = 500`, the
sentiment extractor sets no bound; and that request is the one submission the
extractor performs. -/
theorem C4_request_contents : ∀ (m x fb : String),
    emailRequest m x =
      { model := m
        messages :=
          [ { role := "system", content := emailSystemContent },
            { role := "user", content := emailUserIntro ++ x } ]
        response_format := "EmailTask"
        temperature := 3 / 10
        max_completion_tokens := some 500 } ∧
    sentimentRequest m fb =
      { model := m
        messages :=
          [ { role := "system", content := sentimentSystemContent },
            { role := "user", content := sentimentUserIntro ++ fb } ]
        response_format := "CustomerSentimentAnalysis"
        temperature := 3 / 10
        max_completion_tokens := none } ∧
    (∀ llm, (parse_email_to_tasks llm m x).2 = [emailRequest m x]) ∧
    (∀ llm2, (analyze_customer_sentiment llm2 m fb).2 = [sentimentRequest m fb]) :=
  fun _ _ _ => ⟨rfl, rfl, fun _ => rfl, fun _ => rfl⟩

/-- C5: Every invocation of an extractor performs exactly one submission to
the external collaborator (its request log is the one-element list holding the
built request, whatever the collaborator answers), and a failing external call
propagates as `collaboratorUnavailable` with no second submission. -/
theorem C5_single_submission_no_retry :
    (∀ (llm : ParseRequest → Except LLMError (RawCompletion RawEmailTask)) (m x : String),
       (parse_email_to_tasks llm m x).2 = [emailRequest m x]) ∧
    (∀ (llm2 : ParseRequest → Except LLMError (RawCompletion RawCustomerSentimentAnalysis))
       (m fb : String),
       (analyze_customer_sentiment llm2 m fb).2 = [sentimentRequest m fb]) ∧
    (∀ (llm : ParseRequest → Except LLMError (RawCompletion RawEmailTask)) (m x : String)
       (e : LLMError), llm (emailRequest m x) = .error e →
       (parse_email_to_tasks llm m x).1 = .error (.collaboratorUnavailable e) ∧
       (parse_email_to_tasks llm m x).2 = [emailRequest m x]) ∧
    (∀ (llm2 : ParseRequest → Except LLMError (RawCompletion RawCustomerSentimentAnalysis))
       (m fb : String) (e : LLMError), llm2 (sentimentRequest m fb) = .error e →
       (analyze_customer_sentiment llm2 m fb).1 = .error (.collaboratorUnavailable e) ∧
       (analyze_customer_sentiment llm2 m fb).2 = [sentimentRequest m fb]) := by
  refine ⟨fun _ _ _ => rfl, fun _ _ _ => rfl, ?_, ?_⟩
  · intro llm m x e h
    refine ⟨?_, rfl⟩
    unfold parse_email_to_tasks chat_completions_parse callLLM
    rw [h]
  · intro llm2 m fb e h
    refine ⟨?_, rfl⟩
    unfold analyze_customer_sentiment chat_completions_parse callLLM
    rw [h]

/-- C5 witness: a concretely failing collaborator propagates its error
through each extractor. -/
theorem C5_witness :
    (parse_email_to_tasks failingEmailLLM stubModel sampleEmailText).1 =
      .error (.collaboratorUnavailable .transport) ∧
    (analyze_customer_sentiment failingCsaLLM stubModel sampleFeedbackText).1 =
      .error (.collaboratorUnavailable .transport) :=
  ⟨(C5_single_submission_no_retry.2.2.1 failingEmailLLM stubModel sampleEmailText
      .transport rfl).1,
   (C5_single_submission_no_retry.2.2.2 failingCsaLLM stubModel sampleFeedbackText
      .transport rfl).1⟩

/-- C7: The extractors add no nondeterminism: two invocations with identical
arguments agree, and the result depends on the collaborator only through its
answer to the single built request. -/
theorem C7_deterministic_extraction :
    (∀ (llm : ParseRequest → Except LLMError (RawCompletion RawEmailTask)) (m x : String),
       parse_email_to_tasks llm m x = parse_email_to_tasks llm m x) ∧
    (∀ (llm2 : ParseRequest → Except LLMError (RawCompletion RawCustomerSentimentAnalysis))
       (m fb : String),
       analyze_customer_sentiment llm2 m fb = analyze_customer_sentiment llm2 m fb) ∧
    (∀ (llm llm2 : ParseRequest → Except LLMError (RawCompletion RawEmailTask)) (m x : String),
       llm (emailRequest m x) = llm2 (emailRequest m x) →
       parse_email_to_tasks llm m x = parse_email_to_tasks llm2 m x) ∧
    (∀ (llm llm2 : ParseRequest → Except LLMError (RawCompletion RawCustomerSentimentAnalysis))
       (m fb : String),
       llm (sentimentRequest m fb) = llm2 (sentimentRequest m fb) →
       analyze_customer_sentiment llm m fb = analyze_customer_sentiment llm2 m fb) := by
  refine ⟨fun _ _ _ => rfl, fun _ _ _ => rfl, ?_, ?_⟩
  · intro llm llm2 m x h
    unfold parse_email_to_tasks chat_completions_parse callLLM
    rw [h]
  · intro llm llm2 m fb h
    unfold analyze_customer_sentiment chat_completions_parse callLLM
    rw [h]

/-- C7 witness: two extensionally equal deterministic stubs yield the same
record at a concrete input. -/
theorem C7_witness :
    parse_email_to_tasks stubEmailLLM stubModel sampleEmailText =
      parse_email_to_tasks stubEmailLLM2 stubModel sampleEmailText :=
  C7_deterministic_extraction.2.2.1 stubEmailLLM stubEmailLLM2 stubModel sampleEmailText rfl

/-- C10: The system message each extractor submits is a fixed constant
independent of the input, the input appears verbatim in the single user
message after the fixed lead of the source f-string, and nothing else in
the request varies with the input. -/
theorem C10_fixed_system_verbatim_input :
    ∀ (m x y fb gb : String),
      (emailRequest m x).messages =
        [ { role := "system", content := emailSystemContent },
          { role := "user", content := emailUserIntro ++ x } ] ∧
      emailUserIntro = "Extract tasks from this email:\n" ∧
      (emailRequest m x).messages.head? = (emailRequest m y).messages.head? ∧
      (emailRequest m x).model = (emailRequest m y).model ∧
      (emailRequest m x).response_format = (emailRequest m y).response_format ∧
      (emailRequest m x).temperature = (emailRequest m y).temperature ∧
      (emailRequest m x).max_completion_tokens = (emailRequest m y).max_completion_tokens ∧
      (sentimentRequest m fb).messages =
        [ { role := "system", content := sentimentSystemContent },
          { role := "user", content := sentimentUserIntro ++ fb } ] ∧
      sentimentUserIntro = "Analyze this customer feedback:\n" ∧
      (sentimentRequest m fb).messages.head? = (sentimentRequest m gb).messages.head? ∧
      (sentimentRequest m fb).model = (sentimentRequest m gb).model ∧
      (sentimentRequest m fb).response_format = (sentimentRequest m gb).response_format ∧
      (sentimentRequest m fb).temperature = (sentimentRequest m gb).temperature ∧
      (sentimentRequest m fb).max_completion_tokens = (sentimentRequest m gb).max_completion_tokens :=
  fun _ _ _ _ _ =>
    ⟨rfl, rfl, rfl, rfl, rfl, rfl, rfl, rfl, rfl, rfl, rfl, rfl, rfl, rfl⟩

/-- C3 counterexample: for the empty input text the claim fails on the code —
the external collaborator is invoked (exactly one request, built from the
empty input, is submitted) and the call returns whatever the collaborator
round yields (here a success), not an `EmptyInput` failure. -/
theorem C3_counterexample :
    (parse_email_to_tasks stubEmailLLM stubModel emptyText).2 =
      [emailRequest stubModel emptyText] ∧
    (parse_email_to_tasks stubEmailLLM stubModel emptyText).1 = .ok stubEmailTask ∧
    (analyze_customer_sentiment stubCsaLLM stubModel emptyText).2 =
      [sentimentRequest stubModel emptyText] ∧
    (analyze_customer_sentiment stubCsaLLM stubModel emptyText).1 = .ok csaUrgentNoActions ∧
    (parse_email_to_tasks stubEmailLLM stubModel blankText).2 =
      [emailRequest stubModel blankText] ∧
    (parse_email_to_tasks stubEmailLLM stubModel blankText).1 = .ok stubEmailTask :=
  ⟨rfl, rfl, rfl, rfl, rfl, rfl⟩

/-- C3 amended: neither extractor special-cases empty or whitespace-only
input — every input, the empty string included, is submitted to the external
collaborator in exactly one request, and an extraction never fails with
`emptyInput`: every failure is a collaborator error, a schema violation, or
the index error on an empty choice list. -/
theorem C3_no_empty_input_guard :
    ∀ (llm : ParseRequest → Except LLMError (RawCompletion RawEmailTask))
      (llm2 : ParseRequest → Except LLMError (RawCompletion RawCustomerSentimentAnalysis))
      (m x : String),
      (parse_email_to_tasks llm m x).2 = [emailRequest m x] ∧
      (∀ e, (parse_email_to_tasks llm m x).1 = .error e →
         (∃ le, e = .collaboratorUnavailable le) ∨ e = .schemaViolation ∨ e = .indexError) ∧
      (analyze_customer_sentiment llm2 m x).2 = [sentimentRequest m x] ∧
      (∀ e, (analyze_customer_sentiment llm2 m x).1 = .error e →
         (∃ le, e = .collaboratorUnavailable le) ∨ e = .schemaViolation ∨ e = .indexError) :=
  fun _ _ _ _ =>
    ⟨rfl, fun _ h => parse_email_error_shape h, rfl, fun _ h => analyze_error_shape h⟩

/-- C3 amended witness: a concretely failing collaborator on the empty input
exercises the error characterization of the amended claim. -/
theorem C3_amended_witness :
    (∃ le, ExtractionError.collaboratorUnavailable LLMError.transport =
        ExtractionError.collaboratorUnavailable le) ∨
      ExtractionError.collaboratorUnavailable LLMError.transport =
        ExtractionError.schemaViolation ∨
      ExtractionError.collaboratorUnavailable LLMError.transport =
        ExtractionError.indexError :=
  (C3_no_empty_input_guard failingEmailLLM failingCsaLLM stubModel emptyText).2.1
    (.collaboratorUnavailable .transport) rfl

/-- C6 counterexample: a successful sentiment extraction whose record has
`requires_followup = true` and `followup_priority = urgent` but an empty
`recommended_actions` list — the claimed non-emptiness does not hold. -/
theorem C6_counterexample :
    (analyze_customer_sentiment stubCsaLLM stubModel sampleFeedbackText).1 =
      .ok csaUrgentNoActions ∧
    csaUrgentNoActions.requires_followup = true ∧
    csaUrgentNoActions.followup_priority = .urgent ∧
    csaUrgentNoActions.recommended_actions = [] :=
  ⟨rfl, rfl, rfl, rfl⟩

/-- C6 amended: the non-emptiness of `recommended_actions` under an urgent
followup is not enforced by the schema or the extractor — there is a
successful extraction with `requires_followup = true`,
`followup_priority = urgent` and empty `recommended_actions`. -/
theorem C6_urgent_followup_actions_not_enforced :
    ∃ (llm : ParseRequest → Except LLMError (RawCompletion RawCustomerSentimentAnalysis))
      (m fb : String) (a : CustomerSentimentAnalysis),
      (analyze_customer_sentiment llm m fb).1 = .ok a ∧
      a.requires_followup = true ∧
      a.followup_priority = .urgent ∧
      a.recommended_actions = [] :=
  ⟨stubCsaLLM, stubModel, sampleFeedbackText, csaUrgentNoActions, rfl, rfl, rfl, rfl⟩

/-- C1: Every record returned by a successful extraction has each enumerated
field inside its declared closed set (rendered back to the wire strings), and
pydantic validation rejects any raw record carrying an out-of-set string for
an enumerated field — for `priority`, the five top-level sentiment enums and
both enum fields of every listed indicator — rather than returning a record. -/
theorem C1_enum_fields_closed :
    (∀ (llm : ParseRequest → Except LLMError (RawCompletion RawEmailTask)) (m x : String)
       (t : EmailTask), (parse_email_to_tasks llm m x).1 = .ok t →
       t.priority.toStr ∈ priorityStrings) ∧
    (∀ (llm2 : ParseRequest → Except LLMError (RawCompletion RawCustomerSentimentAnalysis))
       (m fb : String) (a : CustomerSentimentAnalysis),
       (analyze_customer_sentiment llm2 m fb).1 = .ok a →
       a.overall_sentiment.toStr ∈ sentimentLevelStrings ∧
       a.emotion_detected.toStr ∈ emotionStrings ∧
       a.churn_risk.toStr ∈ churnRiskStrings ∧
       a.followup_priority.toStr ∈ followupPriorityStrings ∧
       a.response_template_type.toStr ∈ responseTemplateTypeStrings ∧
       ∀ ind ∈ a.key_sentiment_indicators,
         ind.sentiment_impact.toStr ∈ sentimentLevelStrings ∧
         ind.category.toStr ∈ categoryStrings) ∧
    (∀ (raw : RawEmailTask) (s : String), raw.priority = some s →
       s ∉ priorityStrings → ∀ t, EmailTask.validate raw ≠ .ok t) ∧
    (∀ (raw : RawCustomerSentimentAnalysis) (s : String), raw.overall_sentiment = some s →
       s ∉ sentimentLevelStrings → ∀ a, CustomerSentimentAnalysis.validate raw ≠ .ok a) ∧
    (∀ (raw : RawCustomerSentimentAnalysis) (s : String), raw.emotion_detected = some s →
       s ∉ emotionStrings → ∀ a, CustomerSentimentAnalysis.validate raw ≠ .ok a) ∧
    (∀ (raw : RawCustomerSentimentAnalysis) (s : String), raw.churn_risk = some s →
       s ∉ churnRiskStrings → ∀ a, CustomerSentimentAnalysis.validate raw ≠ .ok a) ∧
    (∀ (raw : RawCustomerSentimentAnalysis) (s : String), raw.followup_priority = some s →
       s ∉ followupPriorityStrings → ∀ a, CustomerSentimentAnalysis.validate raw ≠ .ok a) ∧
    (∀ (raw : RawCustomerSentimentAnalysis) (s : String),
       raw.response_template_type = some s → s ∉ responseTemplateTypeStrings →
       ∀ a, CustomerSentimentAnalysis.validate raw ≠ .ok a) ∧
    (∀ (raw : RawCustomerSentimentAnalysis) (rinds : List RawSentimentIndicator)
       (r : RawSentimentIndicator) (s : String), raw.key_sentiment_indicators = some rinds →
       r ∈ rinds → r.sentiment_impact = some s → s ∉ sentimentLevelStrings →
       ∀ a, CustomerSentimentAnalysis.validate raw ≠ .ok a) ∧
    (∀ (raw : RawCustomerSentimentAnalysis) (rinds : List RawSentimentIndicator)
       (r : RawSentimentIndicator) (s : String), raw.key_sentiment_indicators = some rinds →
       r ∈ rinds → r.category = some s → s ∉ categoryStrings →
       ∀ a, CustomerSentimentAnalysis.validate raw ≠ .ok a) := by
  refine ⟨?_, ?_, ?_, ?_, ?_, ?_, ?_, ?_, ?_, ?_⟩
  · intro llm m x t _
    exact priority_toStr_mem t.priority
  · intro llm2 m fb a _
    exact ⟨sentimentLevel_toStr_mem _, emotion_toStr_mem _, churnRisk_toStr_mem _,
           Followuppriority_toStr_mem _, responseTemplateType_toStr_mem _,
           fun ind _ => ⟨sentimentLevel_toStr_mem _, feedbackCategory_toStr_mem _⟩⟩
  · intro raw s hs hmem t hok
    obtain ⟨s2, hs2, hp⟩ := emailValidate_ok_priority hok
    rw [hs] at hs2
    injection hs2 with h2
    subst h2
    exact hmem (priority_ofString_mem hp)
  · intro raw s hs hmem a hok
    obtain ⟨⟨s2, hs2, hp⟩, _, _, _, _, _, _, _, _⟩ := csaValidate_ok_inv hok
    rw [hs] at hs2
    injection hs2 with h2
    subst h2
    exact hmem (sentimentLevel_ofString_mem hp)
  · intro raw s hs hmem a hok
    obtain ⟨_, _, _, ⟨s2, hs2, hp⟩, _, _, _, _, _⟩ := csaValidate_ok_inv hok
    rw [hs] at hs2
    injection hs2 with h2
    subst h2
    exact hmem (emotion_ofString_mem hp)
  · intro raw s hs hmem a hok
    obtain ⟨_, _, _, _, ⟨s2, hs2, hp⟩, _, _, _, _⟩ := csaValidate_ok_inv hok
    rw [hs] at hs2
    injection hs2 with h2
    subst h2
    exact hmem (churnRisk_ofString_mem hp)
  · intro raw s hs hmem a hok
    obtain ⟨_, _, _, _, _, ⟨s2, hs2, hp⟩, _, _, _⟩ := csaValidate_ok_inv hok
    rw [hs] at hs2
    injection hs2 with h2
    subst h2
    exact hmem (Followuppriority_ofString_mem hp)
  · intro raw s hs hmem a hok
    obtain ⟨_, _, _, _, _, _, ⟨s2, hs2, hp⟩, _, _⟩ := csaValidate_ok_inv hok
    rw [hs] at hs2
    injection hs2 with h2
    subst h2
    exact hmem (responseTemplateType_ofString_mem hp)
  · intro raw rinds r s hki hr hs hmem a hok
    obtain ⟨_, _, ⟨rinds2, hki2, hv⟩, _, _, _, _, _, _⟩ := csaValidate_ok_inv hok
    rw [hki] at hki2
    injection hki2 with h2
    subst h2
    obtain ⟨i, hvi⟩ := validateIndicators_ok_mem hv r hr
    obtain ⟨⟨s2, hs2, hsi⟩, _⟩ := indicatorValidate_ok_inv hvi
    rw [hs] at hs2
    injection hs2 with h3
    subst h3
    exact hmem (sentimentLevel_ofString_mem hsi)
  · intro raw rinds r s hki hr hs hmem a hok
    obtain ⟨_, _, ⟨rinds2, hki2, hv⟩, _, _, _, _, _, _⟩ := csaValidate_ok_inv hok
    rw [hki] at hki2
    injection hki2 with h2
    subst h2
    obtain ⟨i, hvi⟩ := validateIndicators_ok_mem hv r hr
    obtain ⟨_, ⟨s2, hs2, hci⟩⟩ := indicatorValidate_ok_inv hvi
    rw [hs] at hs2
    injection hs2 with h3
    subst h3
    exact hmem (feedbackCategory_ofString_mem hci)

/-- C1 witness: the stub extraction's priority string is in the closed set,
and the hallucinated priority the source docstring warns about is rejected. -/
theorem C1_witness :
    stubEmailTask.priority.toStr ∈ priorityStrings ∧
    (∀ t, EmailTask.validate rawEmailBadPriority ≠ .ok t) :=
  ⟨C1_enum_fields_closed.1 stubEmailLLM stubModel sampleEmailText stubEmailTask rfl,
   C1_enum_fields_closed.2.2.1 rawEmailBadPriority ("super_urgent") rfl (by decide)⟩

/-- C2: Every successful sentiment extraction carries a `sentiment_score` in
the closed interval from -1 to 1; a raw record whose score lies outside the
interval — 1.5 and -2.0 included — is rejected with `schemaViolation` rather
than returned. -/
theorem C2_sentiment_score_bounded :
    (∀ (llm2 : ParseRequest → Except LLMError (RawCompletion RawCustomerSentimentAnalysis))
       (m fb : String) (a : CustomerSentimentAnalysis),
       (analyze_customer_sentiment llm2 m fb).1 = .ok a →
       -1 ≤ a.sentiment_score ∧ a.sentiment_score ≤ 1) ∧
    (∀ (raw : RawCustomerSentimentAnalysis) (q : ℚ), raw.sentiment_score = some q →
       ¬(-1 ≤ q ∧ q ≤ 1) →
       CustomerSentimentAnalysis.validate raw = .error .schemaViolation) ∧
    CustomerSentimentAnalysis.validate rawCsaScoreTooHigh = .error .schemaViolation ∧
    CustomerSentimentAnalysis.validate rawCsaScoreTooLow = .error .schemaViolation := by
  have hbad : ∀ (raw : RawCustomerSentimentAnalysis) (q : ℚ), raw.sentiment_score = some q →
      ¬(-1 ≤ q ∧ q ≤ 1) →
      CustomerSentimentAnalysis.validate raw = .error .schemaViolation := by
    intro raw q hq hnb
    cases hv : CustomerSentimentAnalysis.validate raw with
    | ok a =>
      exfalso
      obtain ⟨_, ⟨q2, hq2, _, hb1, hb2⟩, _, _, _, _, _, _, _⟩ := csaValidate_ok_inv hv
      rw [hq] at hq2
      injection hq2 with h2
      subst h2
      exact hnb ⟨hb1, hb2⟩
    | error e =>
      exact congrArg Except.error (csaValidate_error_shape hv)
  refine ⟨?_, hbad, ?_, ?_⟩
  · intro llm2 m fb a hok
    obtain ⟨raw, hv⟩ := analyze_ok_inv hok
    obtain ⟨_, ⟨q, _, heq, hb1, hb2⟩, _, _, _, _, _, _, _⟩ := csaValidate_ok_inv hv
    rw [heq]
    exact ⟨hb1, hb2⟩
  · exact hbad rawCsaScoreTooHigh (3 / 2) rfl (by norm_num)
  · exact hbad rawCsaScoreTooLow (-2) rfl (by norm_num)

/-- C2 witness: the stub extraction's score is inside the bound, and the raw
record with score 1.5 is concretely rejected as a schema violation. -/
theorem C2_witness :
    (-1 ≤ csaUrgentNoActions.sentiment_score ∧ csaUrgentNoActions.sentiment_score ≤ 1) ∧
    CustomerSentimentAnalysis.validate rawCsaScoreTooHigh = .error .schemaViolation :=
  ⟨C2_sentiment_score_bounded.1 stubCsaLLM stubModel sampleFeedbackText
      csaUrgentNoActions rfl,
   C2_sentiment_score_bounded.2.1 rawCsaScoreTooHigh (3 / 2) rfl (by norm_num)⟩

/-- C8: In the `EmailTask` schema only `deadline` has a default — a raw record
that omits `deadline` but carries the five required fields (with a legal
priority) validates to a record with `deadline = None`, while omitting
`sender`, `date`, `action_items`, `priority` or `context` is a validation
failure. -/
theorem C8_deadline_only_default :
    (∀ (sender date : String) (items : List String) (ps ctx : String) (p : Priority),
       Priority.ofString ps = some p →
       EmailTask.validate
         { sender := some sender, date := some date, action_items := some items,
           priority := some ps, deadline := none, context := some ctx } =
         .ok { sender := sender, date := date, action_items := items,
               priority := p, deadline := none, context := ctx }) ∧
    (∀ raw : RawEmailTask, raw.sender = none →
       EmailTask.validate raw = .error .schemaViolation) ∧
    (∀ raw : RawEmailTask, raw.date = none →
       EmailTask.validate raw = .error .schemaViolation) ∧
    (∀ raw : RawEmailTask, raw.action_items = none →
       EmailTask.validate raw = .error .schemaViolation) ∧
    (∀ raw : RawEmailTask, raw.priority = none →
       EmailTask.validate raw = .error .schemaViolation) ∧
    (∀ raw : RawEmailTask, raw.context = none →
       EmailTask.validate raw = .error .schemaViolation) := by
  refine ⟨?_, ?_, ?_, ?_, ?_, ?_⟩
  · intro sender date items ps ctx p h
    simp [EmailTask.validate, h]
  · intro raw h
    obtain ⟨s, d, i, p, dl, c⟩ := raw
    dsimp only at h
    subst h
    cases d <;> cases i <;> cases p <;> cases c <;> rfl
  · intro raw h
    obtain ⟨s, d, i, p, dl, c⟩ := raw
    dsimp only at h
    subst h
    cases s <;> cases i <;> cases p <;> cases c <;> rfl
  · intro raw h
    obtain ⟨s, d, i, p, dl, c⟩ := raw
    dsimp only at h
    subst h
    cases s <;> cases d <;> cases p <;> cases c <;> rfl
  · intro raw h
    obtain ⟨s, d, i, p, dl, c⟩ := raw
    dsimp only at h
    subst h
    cases s <;> cases d <;> cases i <;> cases c <;> rfl
  · intro raw h
    obtain ⟨s, d, i, p, dl, c⟩ := raw
    dsimp only at h
    subst h
    cases s <;> cases d <;> cases i <;> cases p <;> rfl

/-- C8 witness: a concrete raw record omitting only `deadline` validates with
`deadline = None`, and the same record with `sender` omitted is rejected. -/
theorem C8_witness :
    EmailTask.validate
      { sender := some ("a"), date := some ("d"), action_items := some ["t"],
        priority := some ("high"), deadline := none, context := some ("c") } =
      .ok { sender := "a", date := "d", action_items := ["t"],
            priority := Priority.high, deadline := none, context := "c" } ∧
    EmailTask.validate rawEmailNoSender = .error .schemaViolation :=
  ⟨C8_deadline_only_default.1 ("a") ("d") ["t"] ("high") ("c") Priority.high rfl,
   C8_deadline_only_default.2.1 rawEmailNoSender rfl⟩

/-- C9: Neither extractor transforms or re-checks the collaborator's output:
whenever `client.chat.completions.parse` succeeds with a non-empty choice
list, the value returned to the caller is exactly the first choice's parsed
record. -/
theorem C9_returns_first_choice_unmodified :
    (∀ (llm : ParseRequest → Except LLMError (RawCompletion RawEmailTask)) (m x : String)
       (completion : ParsedCompletion EmailTask) (log : List ParseRequest)
       (c : ParsedChoice EmailTask) (rest : List (ParsedChoice EmailTask)),
       chat_completions_parse EmailTask.validate llm (emailRequest m x) =
         (.ok completion, log) →
       completion.choices = c :: rest →
       (parse_email_to_tasks llm m x).1 = .ok c.message.parsed) ∧
    (∀ (llm2 : ParseRequest → Except LLMError (RawCompletion RawCustomerSentimentAnalysis))
       (m fb : String) (completion : ParsedCompletion CustomerSentimentAnalysis)
       (log : List ParseRequest) (c : ParsedChoice CustomerSentimentAnalysis)
       (rest : List (ParsedChoice CustomerSentimentAnalysis)),
       chat_completions_parse CustomerSentimentAnalysis.validate llm2 (sentimentRequest m fb) =
         (.ok completion, log) →
       completion.choices = c :: rest →
       (analyze_customer_sentiment llm2 m fb).1 = .ok c.message.parsed) := by
  constructor
  · intro llm m x completion log c rest h hc
    unfold parse_email_to_tasks
    dsimp only
    rw [h]
    dsimp only
    rw [hc]
  · intro llm2 m fb completion log c rest h hc
    unfold analyze_customer_sentiment
    dsimp only
    rw [h]
    dsimp only
    rw [hc]

/-- C9 witness: with the deterministic stub collaborator the email extractor
returns exactly the first parsed choice. -/
theorem C9_witness :
    (parse_email_to_tasks stubEmailLLM stubModel sampleEmailText).1 = .ok stubEmailTask :=
  C9_returns_first_choice_unmodified.1 stubEmailLLM stubModel sampleEmailText
    { choices := [ { message := { parsed := stubEmailTask } } ] }
    [emailRequest stubModel sampleEmailText]
    { message := { parsed := stubEmailTask } } [] rfl rfl
